import Mathlib

/-!
Verification of the kpi-dashboard repository against its specification.

This file shallowly embeds the parts of the source that the claims touch:
`KPICalculator` (src/kpi_calculator.py), the threshold/alert path in
src/app.py (`check_thresholds`, the color coding in `display_dashboard`),
`Database` (src/kpi_database.py: `store_data`, `update_threshold`,
`get_thresholds`, the thresholds table invariant), and the heuristic
column resolution (`LLMDataExtractor._fallback_analysis` in
src/llm_data_extractor.py and `DataProcessor.validate_data` in
src/data_processor.py).

Numeric cells are modelled as rationals; machine floats only carry exact
decimal data in every scenario treated here.  Fallible Python code
(raising exceptions) is modelled with `Except`.
-/

namespace KpiDashboard

/-- Status band used by the dashboard color coding in
`display_dashboard` (src/app.py lines 256-264): `st.error` is the
critical band, `st.warning` the warning band, `st.success` the good
band. -/
inductive Band
  | critical
  | warning
  | good
  deriving DecidableEq, Repr

/-- `KPICalculator.get_kpi_status` (src/kpi_calculator.py lines
205-212).  The `kpi_name` argument is accepted and ignored exactly as
in the source.  Returns the literal strings the source returns. -/
def get_kpi_status (kpi_name : String) (current_value threshold : ℚ) : String :=
  if current_value ≥ threshold then "good"
  else if current_value ≥ threshold * (9 / 10) then "warning"
  else "critical"

/-- Threshold color coding in `display_dashboard` (src/app.py lines
258-264): `numeric_value < new_threshold` shows the error (critical)
box, else `numeric_value < new_threshold * 1.1` the warning box, else
the success (good) box. -/
def display_threshold_band (numeric_value new_threshold : ℚ) : Band :=
  if numeric_value < new_threshold then Band.critical
  else if numeric_value < new_threshold * (11 / 10) then Band.warning
  else Band.good

/-- One row of the dataframe handed to `KPICalculator`.  The `date`
field is meaningful only when the containing frame's `hasDate` flag is
set (the source guards every date access with
`if 'date' in data.columns`). -/
structure Row where
  date : Int
  revenue : ℚ
  cogs : ℚ
  deriving DecidableEq, Repr

/-- A pandas dataframe as `KPICalculator` sees it: a row list plus
column-presence flags for the columns the calculator inspects.  Rows
are stored in the order the calculator operates on; when `hasDate` is
set this is the ascending date order produced by
`data.sort_values('date')` (the sort is a permutation, and every claim
treated here is stated about the sorted sequence). -/
structure DataFrame where
  rows : List Row
  hasDate : Bool
  hasRevenue : Bool
  hasCogs : Bool
  hasProfit : Bool
  deriving DecidableEq, Repr

/-- `KPICalculator.calculate_revenue` (src/kpi_calculator.py lines
51-55): the sum of the revenue column when present, else 0. -/
def calculate_revenue (data : DataFrame) : ℚ :=
  if data.hasRevenue then (data.rows.map Row.revenue).sum else 0

/-- `KPICalculator.calculate_cogs` (src/kpi_calculator.py lines 57-61). -/
def calculate_cogs (data : DataFrame) : ℚ :=
  if data.hasCogs then (data.rows.map Row.cogs).sum else 0

/-- `KPICalculator.calculate_profit` (src/kpi_calculator.py lines 63-67). -/
def calculate_profit (data : DataFrame) : ℚ :=
  calculate_revenue data - calculate_cogs data

/-- `KPICalculator.calculate_profit_margin` (src/kpi_calculator.py
lines 69-76): `(profit / revenue) * 100` when `revenue > 0`, else 0. -/
def calculate_profit_margin (data : DataFrame) : ℚ :=
  if calculate_revenue data > 0 then (calculate_profit data / calculate_revenue data) * 100
  else 0

/-- `KPICalculator.calculate_growth_rate` (src/kpi_calculator.py lines
78-93).  pandas `data.tail(k)` is the last `k` rows, i.e.
`List.drop (n - k)`, and `data.head(k)` is `List.take k`; the source
uses `k = len(data) // 2` for both. -/
def calculate_growth_rate (data : DataFrame) : ℚ :=
  if data.hasRevenue = false ∨ data.rows.length < 2 then 0
  else
    let n := data.rows.length
    let revs := data.rows.map Row.revenue
    let current_period := (revs.drop (n - n / 2)).sum
    let previous_period := (revs.take (n / 2)).sum
    if previous_period > 0 then ((current_period - previous_period) / previous_period) * 100
    else 0

/-- `KPICalculator.calculate_revenue_per_day` (src/kpi_calculator.py
lines 95-106): with a date column, the mean over the per-date revenue
sums of `groupby('date')`; without one, the mean revenue per row.  The
mean of an empty series is NaN in pandas; the zero this model yields
there (Lean's `x / 0 = 0`) is only taken on empty frames, which
`calculate_kpis` never passes in. -/
def calculate_revenue_per_day (data : DataFrame) : ℚ :=
  if data.hasRevenue = false then 0
  else if data.hasDate then
    let dates := (data.rows.map Row.date).dedup
    let daily := dates.map fun d => ((data.rows.filter fun r => r.date == d).map Row.revenue).sum
    daily.sum / (daily.length : ℚ)
  else
    (data.rows.map Row.revenue).sum / (data.rows.length : ℚ)

/-- `KPICalculator.calculate_efficiency_ratio` (src/kpi_calculator.py
lines 108-115): `revenue / cogs` when `cogs > 0`, else 0. -/
def calculate_efficiency_ratio (data : DataFrame) : ℚ :=
  if calculate_cogs data > 0 then calculate_revenue data / calculate_cogs data else 0

/-- Least-squares slope of `np.polyfit(range(len ys), ys, 1)[0]`
computed exactly over the rationals. -/
def polyfit_slope (ys : List ℚ) : ℚ :=
  let n : ℚ := ys.length
  let xs : List ℚ := (List.range ys.length).map fun i => (i : ℚ)
  let sx := xs.sum
  let sy := ys.sum
  let sxy := ((xs.zip ys).map fun p => p.1 * p.2).sum
  let sxx := (xs.map fun x => x * x).sum
  (n * sxy - sx * sy) / (n * sxx - sx * sx)

/-- A value of the KPI mapping: a float or one of the trend label
strings (src/kpi_calculator.py lines 33-39 keeps the strings as-is). -/
inductive KpiValue
  | num (x : ℚ)
  | str (s : String)
  deriving DecidableEq, Repr

/-- `calculate_profit` of the single-row slice `data.iloc[i:i+1]` used
by the profit-trend branch (src/kpi_calculator.py line 131). -/
def row_profit (data : DataFrame) (r : Row) : ℚ :=
  (if data.hasRevenue then r.revenue else 0) - (if data.hasCogs then r.cogs else 0)

/-- `KPICalculator.calculate_trends` (src/kpi_calculator.py lines
117-137).  The inner `len(values) >= 2` checks are subsumed by the
`len(data) >= 3` guards and elided. -/
def calculate_trends (data : DataFrame) : List (String × KpiValue) :=
  (if data.hasRevenue ∧ 3 ≤ data.rows.length then
    let recent_trend := polyfit_slope (data.rows.map Row.revenue)
    [("revenue_trend", KpiValue.str (if recent_trend > 0 then "increasing" else "decreasing")),
     ("revenue_change", KpiValue.num recent_trend)]
  else []) ++
  (if data.hasProfit ∧ 3 ≤ data.rows.length then
    let profit_trend := polyfit_slope (data.rows.map (row_profit data))
    [("profit_trend", KpiValue.str (if profit_trend > 0 then "increasing" else "decreasing")),
     ("profit_change", KpiValue.num profit_trend)]
  else [])

/-- `KPICalculator.calculate_kpis` (src/kpi_calculator.py lines
17-49): empty mapping on an empty frame, else the seven basic KPIs
followed by the trend entries.  The final performance-metrics block
(lines 41-47) computes floating-point dispersion statistics
(sample standard deviation, median) whose square roots have no exact
rational embedding; none of its keys (`revenue_volatility`,
`revenue_max`, `revenue_min`, `revenue_median`, `cogs_volatility`,
`avg_cogs`, `*_ma_*`) collides with the keys below or is referenced by
any claim, so the block is omitted from this model. -/
def calculate_kpis (data : DataFrame) : List (String × KpiValue) :=
  if data.rows.isEmpty then []
  else
    [("revenue", KpiValue.num (calculate_revenue data)),
     ("cogs", KpiValue.num (calculate_cogs data)),
     ("profit", KpiValue.num (calculate_profit data)),
     ("profit_margin", KpiValue.num (calculate_profit_margin data)),
     ("growth_rate", KpiValue.num (calculate_growth_rate data)),
     ("revenue_per_day", KpiValue.num (calculate_revenue_per_day data)),
     ("efficiency_ratio", KpiValue.num (calculate_efficiency_ratio data))]
    ++ calculate_trends data

/-- First pair with the given key, if any. -/
def find_pair {α : Type} : List (String × α) → String → Option α
  | [], _ => none
  | p :: rest, key => if p.1 = key then some p.2 else find_pair rest key

/-- Lookup in a Python dict built by inserting the pairs in order:
the last binding of a key wins. -/
def dict_get (kpis : List (String × KpiValue)) (key : String) : Option KpiValue :=
  find_pair kpis.reverse key

/-- Growth formula as the specification words it: second half = rows
`[n/2, n)` (i.e. `List.drop (n / 2)`), first half = rows `[0, n/2)`.
This definition exists only to be compared against
`calculate_growth_rate`, which follows the source. -/
def growth_rate_spec (data : DataFrame) : ℚ :=
  if data.rows.length < 2 then 0
  else
    let n := data.rows.length
    let revs := data.rows.map Row.revenue
    let second_half := (revs.drop (n / 2)).sum
    let first_half := (revs.take (n / 2)).sum
    if 0 < first_half then 100 * (second_half - first_half) / first_half else 0

/-- Three-row frame (no dates) with revenues 10, 10, 100: the claimed
halves are rows `[0,1)` and `[1,3)`, but `tail(3 // 2)` is only the
last row. -/
def df_odd : DataFrame :=
  { rows := [⟨0, 10, 0⟩, ⟨0, 10, 0⟩, ⟨0, 100, 0⟩],
    hasDate := false, hasRevenue := true, hasCogs := true, hasProfit := false }

/-- Four-row frame with revenues 10, 20, 30, 40 used to witness the
amended growth formula. -/
def df_even : DataFrame :=
  { rows := [⟨0, 10, 0⟩, ⟨0, 20, 0⟩, ⟨0, 30, 0⟩, ⟨0, 40, 0⟩],
    hasDate := false, hasRevenue := true, hasCogs := true, hasProfit := false }

/-- Scenario B frame: a single row with `revenue = 0` and `cogs = 0`. -/
def dfB : DataFrame :=
  { rows := [⟨0, 0, 0⟩],
    hasDate := false, hasRevenue := true, hasCogs := true, hasProfit := false }

/-- Scenario A frame: rows `{revenue: 100, cogs: 60}` and
`{revenue: 200, cogs: 90}`, no dates. -/
def dfA : DataFrame :=
  { rows := [⟨0, 100, 60⟩, ⟨0, 200, 90⟩],
    hasDate := false, hasRevenue := true, hasCogs := true, hasProfit := false }

/-- Lookup in the thresholds dict returned by
`Database.get_thresholds` (a Python dict comprehension: the last row
for a key wins). -/
def threshold_get (thresholds : List (String × ℚ)) (key : String) : Option ℚ :=
  find_pair thresholds.reverse key

/-- Loop body of `check_thresholds` (src/app.py lines 164-174): for
each KPI in dict order, skip it when no threshold exists under its
name; otherwise evaluate `kpi_value < threshold` — which on a string
value raises `TypeError` in Python 3, aborting the remaining
iterations — and dispatch an alert (`alert_manager.send_alert`) when
the value is below the threshold.  The returned list collects the
dispatched `(kpi_name, value)` pairs in dispatch order. -/
def check_thresholds_loop (thresholds : List (String × ℚ)) :
    List (String × KpiValue) → List (String × ℚ) → Except String (List (String × ℚ))
  | [], sent => Except.ok sent
  | p :: rest, sent =>
    match threshold_get thresholds p.1 with
    | none => check_thresholds_loop thresholds rest sent
    | some threshold =>
      match p.2 with
      | KpiValue.num v =>
        check_thresholds_loop thresholds rest
          (if v < threshold then sent ++ [(p.1, v)] else sent)
      | KpiValue.str _ =>
        Except.error "TypeError: unsupported comparison between str and float"

/-- `check_thresholds` (src/app.py lines 164-174). -/
def check_thresholds (kpis : List (String × KpiValue)) (thresholds : List (String × ℚ)) :
    Except String (List (String × ℚ)) :=
  check_thresholds_loop thresholds kpis []

/-- A row of the `alerts` table (src/kpi_database.py lines 42-54). -/
structure AlertRecord where
  kpi_name : String
  current_value : ℚ
  threshold_value : ℚ
  deriving DecidableEq, Repr

/-- One ingestion cycle as `process_uploaded_file` runs it
(src/app.py lines 136-162): `check_thresholds` is called on the fresh
snapshot.  The dispatch path calls neither `Database.get_recent_alerts`
nor `Database.log_alert` (no caller of either exists in the sources),
so the alerts table is passed through untouched and never consulted.
A `TypeError` escapes to the caller's `except` block, dispatching
nothing further. -/
def process_cycle (alerts_log : List AlertRecord) (kpis : List (String × KpiValue))
    (thresholds : List (String × ℚ)) : List (String × ℚ) × List AlertRecord :=
  match check_thresholds kpis thresholds with
  | Except.ok dispatched => (dispatched, alerts_log)
  | Except.error _ => ([], alerts_log)

/-- Three-row frame whose revenue strictly increases, so
`calculate_kpis` emits the trend label `revenue_trend = "increasing"`. -/
def df_trend : DataFrame :=
  { rows := [⟨0, 10, 5⟩, ⟨0, 20, 5⟩, ⟨0, 30, 5⟩],
    hasDate := false, hasRevenue := true, hasCogs := true, hasProfit := false }

/-- One input row as `Database.store_data` receives it: every field
may be absent (`row.get(key, default)` supplies the default when the
column is missing).  Dates are modelled by their formatted string. -/
structure InputRow where
  date : Option String
  revenue : Option ℚ
  cogs : Option ℚ
  deriving DecidableEq, Repr

/-- One row of the `kpi_data` table (src/kpi_database.py lines 16-29):
the `raw_data` column holds the serialized input row. -/
structure StoredRecord where
  date : String
  revenue : ℚ
  cogs : ℚ
  profit : ℚ
  profit_margin : ℚ
  growth_rate : ℚ
  raw_data : InputRow
  deriving DecidableEq, Repr

/-- `float(kpis.get(key, 0))` as `store_data` uses it: 0 when the key
is absent, the number when present; on a trend-label string `float()`
would raise `ValueError` (the labels are not numerals). -/
def kpi_float_get (kpis : List (String × KpiValue)) (key : String) : Except String ℚ :=
  match dict_get kpis key with
  | none => Except.ok 0
  | some (KpiValue.num x) => Except.ok x
  | some (KpiValue.str _) => Except.error "ValueError: could not convert string to float"

/-- `Database.store_data` (src/kpi_database.py lines 59-94): one
`INSERT` per input row, each record combining the row's own
(zero-defaulted) date/revenue/cogs with the snapshot-level profit,
profit margin and growth rate.  The three snapshot lookups do not
depend on the row, so they are hoisted out of the loop; an exception
rolls the transaction back, so the error case stores nothing either
way.  `today` stands for `datetime.now().date()` formatted. -/
def store_data (today : String) (data : List InputRow) (kpis : List (String × KpiValue)) :
    Except String (List StoredRecord) :=
  match kpi_float_get kpis "profit", kpi_float_get kpis "profit_margin",
      kpi_float_get kpis "growth_rate" with
  | Except.ok profit, Except.ok profit_margin, Except.ok growth_rate =>
    Except.ok (data.map fun row =>
      { date := row.date.getD today
        revenue := row.revenue.getD 0
        cogs := row.cogs.getD 0
        profit := profit
        profit_margin := profit_margin
        growth_rate := growth_rate
        raw_data := row })
  | Except.error e, _, _ => Except.error e
  | _, Except.error e, _ => Except.error e
  | _, _, Except.error e => Except.error e

/-- Witness batch: one fully-absent row and one row missing only its
cogs and date fields filled differently. -/
def rowsW : List InputRow :=
  [⟨none, none, some 5⟩, ⟨some "2024-01-15", some 10, none⟩]

/-- Witness snapshot carrying the Scenario A aggregate values. -/
def kpisW : List (String × KpiValue) :=
  [("profit", KpiValue.num 150), ("profit_margin", KpiValue.num 50),
   ("growth_rate", KpiValue.num 0)]

/-- Records `store_data` produces for `rowsW` and `kpisW`: the first
row is date-stamped and zero-filled in revenue, the second zero-filled
in cogs, and both carry the snapshot-level profit/margin/growth. -/
def recsW : List StoredRecord :=
  [⟨"2024-06-01", 0, 5, 150, 50, 0, ⟨none, none, some 5⟩⟩,
   ⟨"2024-01-15", 10, 0, 150, 50, 0, ⟨some "2024-01-15", some 10, none⟩⟩]

/-- Deletion of every row under a key, the conflict-resolution step of
SQLite `INSERT OR REPLACE` against the `UNIQUE` column `kpi_name`. -/
def remove_key : List (String × ℚ) → String → List (String × ℚ)
  | [], _ => []
  | p :: rest, k => if p.1 = k then remove_key rest k else p :: remove_key rest k

/-- `Database.update_threshold` (src/kpi_database.py lines 123-135):
`INSERT OR REPLACE INTO thresholds (kpi_name, threshold_value,
updated_at) VALUES (?, ?, CURRENT_TIMESTAMP)` — any row conflicting on
the unique `kpi_name` is deleted and the fresh row inserted. -/
def update_threshold (tbl : List (String × ℚ)) (kpi_name : String)
    (threshold_value : ℚ) : List (String × ℚ) :=
  remove_key tbl kpi_name ++ [(kpi_name, threshold_value)]

/-- `Database.get_thresholds` (src/kpi_database.py lines 111-121):
`SELECT kpi_name, threshold_value FROM thresholds` folded into a dict
(later rows overwrite earlier ones for a repeated key). -/
def get_thresholds (tbl : List (String × ℚ)) : String → Option ℚ :=
  fun k => threshold_get tbl k

/-- Witness table for the round-trip. -/
def tblW : List (String × ℚ) := [("revenue", 5), ("profit_margin", 30)]

/-- Reachable states of the `thresholds` table: empty at creation
(src/kpi_database.py lines 32-40), then any sequence of
`update_threshold` calls — the only statement in the sources that
writes the table. -/
inductive ThresholdsReachable : List (String × ℚ) → Prop
  | init : ThresholdsReachable []
  | upsert (tbl : List (String × ℚ)) (k : String) (v : ℚ) :
      ThresholdsReachable tbl → ThresholdsReachable (update_threshold tbl k v)

/-- Python `str.lower()` over the column name, character-wise. -/
def py_lower (s : String) : String :=
  String.mk (s.data.map Char.toLower)

/-- Whether `w` occurs at the start of `s` (character lists). -/
def chars_has_init : List Char → List Char → Bool
  | _, [] => true
  | [], _ :: _ => false
  | c :: cs, d :: ds => c == d && chars_has_init cs ds

/-- Whether `w` occurs as a contiguous substring of `s`, the meaning
of Python `w in s` on strings. -/
def chars_has_sub : List Char → List Char → Bool
  | [], w => w.isEmpty
  | c :: cs, w => chars_has_init (c :: cs) w || chars_has_sub cs w

/-- Python `any(word in col_lower for word in words)`. -/
def word_in (col_lower : String) (words : List String) : Bool :=
  words.any fun w => chars_has_sub col_lower.data w.data

/-- Result of `LLMDataExtractor._fallback_analysis`
(src/llm_data_extractor.py lines 250-286), restricted to the fields
the claims inspect: the three column assignments and the fixed
confidence score. -/
structure FallbackResult where
  date_col : Option String
  revenue_col : Option String
  cogs_col : Option String
  confidence_score : ℚ
  deriving DecidableEq, Repr

/-- Loop body of `_fallback_analysis` (src/llm_data_extractor.py lines
261-268): an `if/elif/elif` chain on the lowercased column name; a
match overwrites the previous assignment of the same slot, so the last
matching column wins. -/
def fallback_step (acc : Option String × Option String × Option String)
    (col : String) : Option String × Option String × Option String :=
  let col_lower := py_lower col
  if word_in col_lower ["date", "time", "period"] then (some col, acc.2.1, acc.2.2)
  else if word_in col_lower ["revenue", "sales", "income"] then (acc.1, some col, acc.2.2)
  else if word_in col_lower ["cogs", "cost", "expense"] then (acc.1, acc.2.1, some col)
  else acc

/-- `LLMDataExtractor._fallback_analysis` (src/llm_data_extractor.py
lines 250-286): scan the columns in declaration order starting from
all-unassigned, then report the assignments with the fixed confidence
score 0.5. -/
def fallback_analysis (columns : List String) : FallbackResult :=
  let r := columns.foldl fallback_step (none, none, none)
  { date_col := r.1, revenue_col := r.2.1, cogs_col := r.2.2, confidence_score := 1 / 2 }

/-- Column-name normalization of `DataProcessor.clean_data`
(src/data_processor.py line 91):
`df.columns.str.lower().str.replace(' ', '_')`. -/
def normalize_column (s : String) : String :=
  String.mk (s.data.map fun c => if c = ' ' then '_' else c.toLower)

/-- Inner scan of `DataProcessor.validate_data` (src/data_processor.py
lines 129-133): the first column whose lowercased name contains one of
the keywords. -/
def validate_find (cols : List String) (keywords : List String) : Option String :=
  cols.find? fun col => word_in (py_lower col) keywords

/-- `DataProcessor.validate_data` (src/data_processor.py lines
118-140): resolve `revenue` and `cogs` against their synonym lists;
succeed only when both are found (`len(found_columns) >= 2`). -/
def validate_data (cols : List String) : Option (String × String) :=
  match validate_find cols ["revenue", "sales", "total_sales", "income"],
      validate_find cols ["cogs", "cost_of_goods_sold", "cost_of_sales", "costs"] with
  | some r, some c => some (r, c)
  | _, _ => none

/-- C1 counterexample: the claim says the status classification returns
`critical` whenever `current < threshold`, but
`KPICalculator.get_kpi_status` at `current = 95`, `threshold = 100`
returns `"warning"`, not `"critical"`, even though `95 < 100`. -/
theorem c1_status_bands_counterexample :
    (95 : ℚ) < 100 ∧
    get_kpi_status "revenue" 95 100 = "warning" ∧
    get_kpi_status "revenue" 95 100 ≠ "critical" := by
  refine ⟨by norm_num, by norm_num [get_kpi_status], ?_⟩
  norm_num [get_kpi_status]
  decide

/-- C1 (amended): the dashboard color coding in `display_dashboard`
classifies every numeric KPI into exactly the three claimed bands
(`critical` iff `current < threshold`, `warning` iff
`threshold ≤ current < threshold * 1.1`, `good` iff
`threshold * 1.1 ≤ current`), while `KPICalculator.get_kpi_status`
instead returns `"good"` iff `threshold ≤ current`, `"warning"` iff
`threshold * 0.9 ≤ current < threshold`, and `"critical"` iff
`current < threshold * 0.9`. -/
theorem c1_status_bands_amended :
    ∀ (kpi_name : String) (v t : ℚ),
      (display_threshold_band v t = Band.critical ↔ v < t) ∧
      (display_threshold_band v t = Band.warning ↔ t ≤ v ∧ v < t * (11 / 10)) ∧
      (display_threshold_band v t = Band.good ↔ t ≤ v ∧ t * (11 / 10) ≤ v) ∧
      (get_kpi_status kpi_name v t = "good" ↔ t ≤ v) ∧
      (get_kpi_status kpi_name v t = "warning" ↔ v < t ∧ t * (9 / 10) ≤ v) ∧
      (get_kpi_status kpi_name v t = "critical" ↔ v < t ∧ v < t * (9 / 10)) := by
  intro kpi_name v t
  unfold display_threshold_band get_kpi_status
  split_ifs with h1 h2 <;>
    refine ⟨?_, ?_, ?_, ?_, ?_, ?_⟩ <;>
    simp_all <;>
    linarith

/-- C2 counterexample: on the three-row frame with revenues
`[10, 10, 100]` the source computes `(100 - 10) / 10 * 100 = 900`
(pandas `tail(1)` is the last row only), while the claimed formula
with second half `[n/2, n)` gives `(110 - 10) / 10 * 100 = 1000`. -/
theorem c2_growth_rate_counterexample :
    calculate_growth_rate df_odd = 900 ∧
    growth_rate_spec df_odd = 1000 ∧
    (900 : ℚ) ≠ 1000 := by
  refine ⟨?_, ?_, by norm_num⟩ <;>
    norm_num [calculate_growth_rate, growth_rate_spec, df_odd]

/-- C2 (amended): for a frame with a revenue column,
`growth_rate` for `n ≥ 2` compares the sum over the last `n / 2` rows
(rows `[n - n/2, n)`, so the middle row of an odd-length frame belongs
to neither half) against the sum over the first `n / 2` rows, as
`100 * (second - first) / first` when the first-half sum is positive
and 0 otherwise; and `growth_rate = 0` for `n < 2`. -/
theorem c2_growth_rate_amended :
    ∀ data : DataFrame, data.hasRevenue = true →
      (2 ≤ data.rows.length →
        calculate_growth_rate data =
          if 0 < ((data.rows.map Row.revenue).take (data.rows.length / 2)).sum then
            100 * (((data.rows.map Row.revenue).drop
                      (data.rows.length - data.rows.length / 2)).sum
                   - ((data.rows.map Row.revenue).take (data.rows.length / 2)).sum)
              / ((data.rows.map Row.revenue).take (data.rows.length / 2)).sum
          else 0) ∧
      (data.rows.length < 2 → calculate_growth_rate data = 0) := by
  intro data hR
  constructor
  · intro hlen
    simp only [calculate_growth_rate]
    rw [if_neg (by simp [hR]; omega)]
    split_ifs with h
    · ring
    · rfl
  · intro hlen
    simp only [calculate_growth_rate]
    rw [if_pos (Or.inr hlen)]

/-- C2 witness: the amended formula applied to the four-row frame:
first half sums to 30, second half to 70, growth `100 * 40 / 30`. -/
theorem c2_growth_rate_witness : calculate_growth_rate df_even = 400 / 3 := by
  have h := (c2_growth_rate_amended df_even rfl).1 (by norm_num [df_even])
  rw [h]
  norm_num [df_even]

/-- C5: every division in the basic KPI formulas is guarded: the
profit margin is 0 whenever total revenue is not positive, the
efficiency ratio is 0 whenever total cogs is not positive, and the
growth rate is 0 for frames with fewer than two rows. -/
theorem c5_degenerate_guards :
    ∀ data : DataFrame,
      (¬ 0 < calculate_revenue data → calculate_profit_margin data = 0) ∧
      (¬ 0 < calculate_cogs data → calculate_efficiency_ratio data = 0) ∧
      (data.rows.length < 2 → calculate_growth_rate data = 0) := by
  intro data
  refine ⟨?_, ?_, ?_⟩
  · intro h
    unfold calculate_profit_margin
    rw [if_neg h]
  · intro h
    unfold calculate_efficiency_ratio
    rw [if_neg h]
  · intro h
    unfold calculate_growth_rate
    rw [if_pos (Or.inr h)]

/-- C5 witness: on the single-row `{revenue: 0, cogs: 0}` frame all
three guarded formulas return 0 (and, the model being total, no
exception can occur). -/
theorem c5_degenerate_witness :
    calculate_profit_margin dfB = 0 ∧ calculate_efficiency_ratio dfB = 0 ∧
    calculate_growth_rate dfB = 0 := by
  obtain ⟨h1, h2, h3⟩ := c5_degenerate_guards dfB
  exact ⟨h1 (by norm_num [calculate_revenue, dfB]),
         h2 (by norm_num [calculate_cogs, dfB]),
         h3 (by norm_num [dfB])⟩

/-- The trend block only ever contributes the four `*_trend` /
`*_change` keys. -/
theorem calculate_trends_key_mem (data : DataFrame) (p : String × KpiValue)
    (hp : p ∈ calculate_trends data) :
    p.1 = "revenue_trend" ∨ p.1 = "revenue_change" ∨
    p.1 = "profit_trend" ∨ p.1 = "profit_change" := by
  unfold calculate_trends at hp
  rw [List.mem_append] at hp
  rcases hp with h | h <;> split_ifs at h <;> simp_all <;>
    rcases h with h | h <;> simp [h]

/-- Skipping a block that never binds the key. -/
theorem find_pair_append_of_no_key {α : Type} (l m : List (String × α)) (k : String)
    (h : ∀ p ∈ l, p.1 ≠ k) : find_pair (l ++ m) k = find_pair m k := by
  induction l with
  | nil => rfl
  | cons p rest ih =>
    simp only [List.cons_append, find_pair]
    rw [if_neg (h p (by simp))]
    exact ih fun q hq => h q (by simp [hq])

/-- A key that never occurs in the appended tail is looked up in the
front list. -/
theorem dict_get_append (l₁ l₂ : List (String × KpiValue)) (k : String)
    (h : ∀ p ∈ l₂, p.1 ≠ k) : dict_get (l₁ ++ l₂) k = dict_get l₁ k := by
  unfold dict_get
  rw [List.reverse_append]
  exact find_pair_append_of_no_key _ _ _ fun p hp => h p (List.mem_reverse.mp hp)

/-- C6: for every non-empty frame carrying revenue and cogs columns,
the snapshot built by `calculate_kpis` maps `revenue` to the sum of
the per-row revenues, `cogs` to the sum of the per-row cogs, `profit`
to their difference, and, when total revenue is positive,
`profit_margin` to `100 * profit / revenue`. -/
theorem c6_snapshot_sums :
    ∀ data : DataFrame,
      data.rows ≠ [] → data.hasRevenue = true → data.hasCogs = true →
      dict_get (calculate_kpis data) "revenue" =
        some (KpiValue.num (data.rows.map Row.revenue).sum) ∧
      dict_get (calculate_kpis data) "cogs" =
        some (KpiValue.num (data.rows.map Row.cogs).sum) ∧
      dict_get (calculate_kpis data) "profit" =
        some (KpiValue.num
          ((data.rows.map Row.revenue).sum - (data.rows.map Row.cogs).sum)) ∧
      (0 < (data.rows.map Row.revenue).sum →
        dict_get (calculate_kpis data) "profit_margin" =
          some (KpiValue.num
            (100 * ((data.rows.map Row.revenue).sum - (data.rows.map Row.cogs).sum)
              / (data.rows.map Row.revenue).sum))) := by
  intro data hne hR hC
  have hempty : data.rows.isEmpty = false := by
    simpa [List.isEmpty_iff] using hne
  have hbasic : calculate_kpis data =
      [("revenue", KpiValue.num (calculate_revenue data)),
       ("cogs", KpiValue.num (calculate_cogs data)),
       ("profit", KpiValue.num (calculate_profit data)),
       ("profit_margin", KpiValue.num (calculate_profit_margin data)),
       ("growth_rate", KpiValue.num (calculate_growth_rate data)),
       ("revenue_per_day", KpiValue.num (calculate_revenue_per_day data)),
       ("efficiency_ratio", KpiValue.num (calculate_efficiency_ratio data))]
      ++ calculate_trends data := by
    simp [calculate_kpis, hempty]
  have htrend : ∀ (k : String), k = "revenue" ∨ k = "cogs" ∨ k = "profit" ∨
      k = "profit_margin" → ∀ p ∈ calculate_trends data, p.1 ≠ k := by
    intro k hk p hp hcontra
    rcases calculate_trends_key_mem data p hp with h | h | h | h <;>
      rcases hk with hk | hk | hk | hk <;> simp_all
  have hrev : calculate_revenue data = (data.rows.map Row.revenue).sum := by
    simp [calculate_revenue, hR]
  have hcogs : calculate_cogs data = (data.rows.map Row.cogs).sum := by
    simp [calculate_cogs, hC]
  refine ⟨?_, ?_, ?_, ?_⟩
  · rw [hbasic, dict_get_append _ _ _ (htrend _ (by simp)), ← hrev]
    simp [dict_get, find_pair]
  · rw [hbasic, dict_get_append _ _ _ (htrend _ (by simp)), ← hcogs]
    simp [dict_get, find_pair]
  · rw [hbasic, dict_get_append _ _ _ (htrend _ (by simp))]
    simp [dict_get, find_pair, calculate_profit, hrev, hcogs]
  · intro hpos
    rw [hbasic, dict_get_append _ _ _ (htrend _ (by simp))]
    have hmargin : calculate_profit_margin data =
        100 * ((data.rows.map Row.revenue).sum - (data.rows.map Row.cogs).sum)
          / (data.rows.map Row.revenue).sum := by
      unfold calculate_profit_margin
      rw [if_pos (by rw [hrev]; exact hpos)]
      rw [calculate_profit, hrev, hcogs]
      ring
    simp [dict_get, find_pair, hmargin]

/-- C6 witness (Scenario A): the two-row dataset yields
`revenue = 300`, `cogs = 150`, `profit = 150`, `profit_margin = 50`. -/
theorem c6_snapshot_sums_witness :
    dict_get (calculate_kpis dfA) "revenue" = some (KpiValue.num 300) ∧
    dict_get (calculate_kpis dfA) "cogs" = some (KpiValue.num 150) ∧
    dict_get (calculate_kpis dfA) "profit" = some (KpiValue.num 150) ∧
    dict_get (calculate_kpis dfA) "profit_margin" = some (KpiValue.num 50) := by
  obtain ⟨h1, h2, h3, h4⟩ := c6_snapshot_sums dfA (by simp [dfA]) rfl rfl
  have e1 : ((dfA.rows.map Row.revenue).sum : ℚ) = 300 := by norm_num [dfA]
  have e2 : ((dfA.rows.map Row.cogs).sum : ℚ) = 150 := by norm_num [dfA]
  refine ⟨?_, ?_, ?_, ?_⟩
  · rw [h1, e1]
  · rw [h2, e2]
  · rw [h3, e1, e2]; norm_num
  · rw [h4 (by rw [e1]; norm_num), e1, e2]; norm_num

/-- C3 (code bug): with threshold `revenue = 1000` and snapshot
`revenue = 900`, the first cycle dispatches a critical alert — and an
identical second cycle immediately afterwards dispatches the same
alert again, while the `AlertRecord` log is still empty after both
cycles: `check_thresholds` never consults `get_recent_alerts` (whose
own docstring says it exists "to avoid spam") and never calls
`log_alert`. -/
theorem c3_rate_limiting_code_bug :
    (process_cycle [] [("revenue", KpiValue.num 900)] [("revenue", 1000)]).1
      = [("revenue", 900)] ∧
    (process_cycle
        (process_cycle [] [("revenue", KpiValue.num 900)] [("revenue", 1000)]).2
        [("revenue", KpiValue.num 900)] [("revenue", 1000)]).1
      = [("revenue", 900)] ∧
    (process_cycle
        (process_cycle [] [("revenue", KpiValue.num 900)] [("revenue", 1000)]).2
        [("revenue", KpiValue.num 900)] [("revenue", 1000)]).2
      = [] := by
  norm_num [process_cycle, check_thresholds, check_thresholds_loop, threshold_get,
    find_pair]

/-- C4 (code bug): the snapshot of `df_trend` carries the non-numeric
entry `revenue_trend = "increasing"`; once a threshold is stored under
that name, `check_thresholds` does not skip the entry but evaluates
`'increasing' < 100.0`, raising `TypeError` — the repository's own
test (src/test_dashboard.py line 80) guards this same loop with
`isinstance(kpi_value, (int, float))`, a guard `check_thresholds`
lacks. -/
theorem c4_non_numeric_code_bug :
    dict_get (calculate_kpis df_trend) "revenue_trend" =
      some (KpiValue.str "increasing") ∧
    check_thresholds (calculate_kpis df_trend) [("revenue_trend", 100)] =
      Except.error "TypeError: unsupported comparison between str and float" := by
  constructor <;>
    norm_num [calculate_kpis, calculate_trends, calculate_revenue, calculate_cogs,
      calculate_profit, calculate_profit_margin, calculate_growth_rate,
      calculate_revenue_per_day, calculate_efficiency_ratio, polyfit_slope,
      row_profit, df_trend, dict_get, check_thresholds, check_thresholds_loop,
      threshold_get, find_pair, List.range_succ] <;>
    simp

/-- C9: when `store_data` succeeds, every input row yields exactly one
stored record (none skipped, none duplicated), with absent revenue or
cogs zero-filled, an absent date stamped with the current date, the
raw row serialized alongside, and the snapshot-level profit, margin
and growth rate attached to every record. -/
theorem c9_store_data_rows :
    ∀ (today : String) (data : List InputRow) (kpis : List (String × KpiValue))
      (recs : List StoredRecord),
      store_data today data kpis = Except.ok recs →
      recs.length = data.length ∧
      ∀ (i : ℕ) (hi : i < data.length) (hi2 : i < recs.length),
        recs[i].date = data[i].date.getD today ∧
        recs[i].revenue = data[i].revenue.getD 0 ∧
        recs[i].cogs = data[i].cogs.getD 0 ∧
        recs[i].raw_data = data[i] ∧
        kpi_float_get kpis "profit" = Except.ok recs[i].profit ∧
        kpi_float_get kpis "profit_margin" = Except.ok recs[i].profit_margin ∧
        kpi_float_get kpis "growth_rate" = Except.ok recs[i].growth_rate := by
  intro today data kpis recs h
  rcases hp : kpi_float_get kpis "profit" with e | profit <;>
    rcases hm : kpi_float_get kpis "profit_margin" with e2 | profit_margin <;>
      rcases hg : kpi_float_get kpis "growth_rate" with e3 | growth_rate <;>
        simp only [store_data, hp, hm, hg] at h <;>
        cases h
  refine ⟨by simp, ?_⟩
  intro i hi hi2
  simp [hp, hm, hg]

/-- C9 witness: `store_data` succeeds on the concrete batch and
applying the claim theorem yields the one-record-per-row count. -/
theorem c9_store_data_rows_witness :
    store_data "2024-06-01" rowsW kpisW = Except.ok recsW ∧
    recsW.length = rowsW.length := by
  have hstore : store_data "2024-06-01" rowsW kpisW = Except.ok recsW := by
    norm_num [store_data, kpi_float_get, dict_get, find_pair, rowsW, kpisW, recsW]
    simp
  exact ⟨hstore, (c9_store_data_rows "2024-06-01" rowsW kpisW recsW hstore).1⟩

/-- Nothing left under the removed key. -/
theorem remove_key_no_key (tbl : List (String × ℚ)) (k : String) :
    ∀ p ∈ remove_key tbl k, p.1 ≠ k := by
  induction tbl with
  | nil => intro p hp; cases hp
  | cons q rest ih =>
    intro p hp
    unfold remove_key at hp
    split_ifs at hp with hq
    · exact ih p hp
    · rcases List.mem_cons.mp hp with h | h
      · rw [h]; exact hq
      · exact ih p h

/-- Removal never invents rows. -/
theorem remove_key_sublist (tbl : List (String × ℚ)) (k : String) :
    List.Sublist (remove_key tbl k) tbl := by
  induction tbl with
  | nil => exact List.Sublist.refl []
  | cons q rest ih =>
    unfold remove_key
    split_ifs
    · exact ih.cons q
    · exact ih.cons₂ q

/-- Removing an absent key changes nothing. -/
theorem remove_key_of_not_mem (tbl : List (String × ℚ)) (k : String)
    (h : k ∉ tbl.map Prod.fst) : remove_key tbl k = tbl := by
  induction tbl with
  | nil => rfl
  | cons q rest ih =>
    simp only [List.map_cons, List.mem_cons, not_or] at h
    unfold remove_key
    rw [if_neg fun hq => h.1 hq.symm, ih h.2]

/-- Under a duplicate-free table, removing a present key deletes
exactly one row. -/
theorem remove_key_length_nodup (tbl : List (String × ℚ)) (k : String)
    (hnd : (tbl.map Prod.fst).Nodup) (hmem : k ∈ tbl.map Prod.fst) :
    (remove_key tbl k).length + 1 = tbl.length := by
  induction tbl with
  | nil => cases hmem
  | cons q rest ih =>
    simp only [List.map_cons, List.nodup_cons] at hnd
    simp only [List.map_cons] at hmem
    unfold remove_key
    by_cases hq : q.1 = k
    · rw [if_pos hq]
      rw [remove_key_of_not_mem rest k (by rw [← hq]; exact hnd.1)]
      simp
    · rw [if_neg hq]
      have hmem2 : k ∈ rest.map Prod.fst := by
        rcases List.mem_cons.mp hmem with h | h
        · exact absurd h.symm hq
        · exact h
      simp only [List.length_cons]
      rw [← ih hnd.2 hmem2]

/-- C7: after `update_threshold tbl k v`, `get_thresholds` maps `k` to
`v` (the most recent write), the table holds exactly one row under
`k`, and — for a duplicate-free table already containing `k` — the
upsert replaced the row rather than adding a second one (the row count
is unchanged). -/
theorem c7_threshold_roundtrip :
    ∀ (tbl : List (String × ℚ)) (k : String) (v : ℚ),
      get_thresholds (update_threshold tbl k v) k = some v ∧
      (update_threshold tbl k v).countP (fun p => decide (p.1 = k)) = 1 ∧
      (k ∈ tbl.map Prod.fst → (tbl.map Prod.fst).Nodup →
        (update_threshold tbl k v).length = tbl.length) := by
  intro tbl k v
  refine ⟨?_, ?_, ?_⟩
  · unfold get_thresholds threshold_get update_threshold
    rw [List.reverse_append]
    simp [find_pair]
  · unfold update_threshold
    rw [List.countP_append]
    have h0 : (remove_key tbl k).countP (fun p => decide (p.1 = k)) = 0 := by
      rw [List.countP_eq_zero]
      intro p hp
      simpa using remove_key_no_key tbl k p hp
    rw [h0]
    simp [List.countP_cons]
  · intro hmem hnd
    unfold update_threshold
    rw [List.length_append]
    simpa using remove_key_length_nodup tbl k hnd hmem

/-- C7 witness: upserting the already-present key `revenue` makes
`get_thresholds` return the new value and leaves the row count at 2. -/
theorem c7_threshold_roundtrip_witness :
    get_thresholds (update_threshold tblW "revenue" 7) "revenue" = some 7 ∧
    (update_threshold tblW "revenue" 7).length = tblW.length := by
  obtain ⟨h1, h2, h3⟩ := c7_threshold_roundtrip tblW "revenue" 7
  exact ⟨h1, h3 (by simp [tblW]) (by simp [tblW])⟩

/-- C10: every reachable thresholds table holds at most one row per
`kpi_name`, so `get_thresholds` yields exactly one value per stored
name; every operation preserves the invariant. -/
theorem c10_thresholds_unique :
    ∀ tbl : List (String × ℚ), ThresholdsReachable tbl →
      ∀ k : String, tbl.countP (fun p => decide (p.1 = k)) ≤ 1 := by
  intro tbl h
  induction h with
  | init => intro k; simp
  | upsert tbl0 k0 v htbl ih =>
    intro k
    unfold update_threshold
    rw [List.countP_append]
    by_cases hk : k = k0
    · subst hk
      have h0 : (remove_key tbl0 k).countP (fun p => decide (p.1 = k)) = 0 := by
        rw [List.countP_eq_zero]
        intro p hp
        simpa using remove_key_no_key tbl0 k p hp
      rw [h0]
      simp [List.countP_cons]
    · have h1 : List.countP (fun p => decide (p.1 = k)) [(k0, v)] = 0 := by
        rw [List.countP_eq_zero]
        intro p hp
        have hpv := List.mem_singleton.mp hp
        subst hpv
        simp only [decide_eq_true_eq]
        exact fun hh => hk hh.symm
      rw [h1]
      have h2 := List.Sublist.countP_le (p := fun p => decide (p.1 = k))
        (remove_key_sublist tbl0 k0)
      have h3 := ih k
      omega

/-- C10 witness: the invariant instantiated at the reachable state
produced by one upsert into the fresh table. -/
theorem c10_thresholds_unique_witness :
    (update_threshold [] "revenue" 5).countP (fun p => decide (p.1 = "revenue")) ≤ 1 :=
  c10_thresholds_unique _
    (ThresholdsReachable.upsert [] "revenue" 5 ThresholdsReachable.init) "revenue"

/-- C8 counterexample: on columns `["Total Sales", "Cost of Sales"]`
the heuristic `_fallback_analysis` does not map `revenue` to
`"Total Sales"`: `"sales"` is a substring of `"cost of sales"`, the
revenue branch is checked before the cogs branch, and the later column
overwrites the earlier assignment — so `revenue` ends up mapped to
`"Cost of Sales"` and `cogs` to `None`. -/
theorem c8_fallback_counterexample :
    (fallback_analysis ["Total Sales", "Cost of Sales"]).revenue_col ≠
      some "Total Sales" ∧
    (fallback_analysis ["Total Sales", "Cost of Sales"]).revenue_col =
      some "Cost of Sales" ∧
    (fallback_analysis ["Total Sales", "Cost of Sales"]).cogs_col = none := by
  refine ⟨?_, rfl, rfl⟩
  decide

/-- C8 (amended): on `["Total Sales", "Cost of Sales"]` the
`_fallback_analysis` heuristic resolves `revenue` to
`"Cost of Sales"`, leaves `date` and `cogs` unresolved, and reports
confidence 0.5; the separate `DataProcessor.validate_data` heuristic,
applied to the clean_data-normalized column names, does resolve
`revenue` to `total_sales` and `cogs` to `cost_of_sales`, but carries
no confidence score. -/
theorem c8_fallback_amended :
    (fallback_analysis ["Total Sales", "Cost of Sales"]).date_col = none ∧
    (fallback_analysis ["Total Sales", "Cost of Sales"]).revenue_col =
      some "Cost of Sales" ∧
    (fallback_analysis ["Total Sales", "Cost of Sales"]).cogs_col = none ∧
    (fallback_analysis ["Total Sales", "Cost of Sales"]).confidence_score = 1 / 2 ∧
    validate_data (["Total Sales", "Cost of Sales"].map normalize_column) =
      some ("total_sales", "cost_of_sales") :=
  ⟨rfl, rfl, rfl, rfl, rfl⟩

end KpiDashboard
